import Mathlib

/-!
Verification of the declaration surface of the two Thorlabs KCube vendor
headers shipped in this repository:

  * Thorlabs.MotionControl.KCube.LaserSource.h  (namespace `KLS` below)
  * Thorlabs.MotionControl.KCube.Solenoid.h     (namespace `KSC` below)

Both files are C headers containing only type declarations (enums and
structs) and function prototypes.  The shallow embedding below transcribes
each header as data: every enum becomes an `EnumDecl` (enumerator names and
numeric values in source order), every struct a `StructDecl` (field names
and C types in source order, plus whether the struct sits inside the
`pragma pack(1)` region of its header), and every function prototype a
`FunDecl` (name, export macro, calling convention, return type, parameter
list as written, the documented return convention, and whether the
declaration carries a body).  Byte layout (offsets and sizeof) is computed
from the MSVC x86 rules: under pack(1) members are laid out back to back;
under default packing each member is aligned to its natural alignment and
the struct is padded to the largest member alignment.
-/

namespace ThorlabsHeaders

/-- C object types appearing in the two headers.  `enumNamed nm base`
references the enum called `nm` whose declared underlying type is `base`
(`""` when the enum has no explicit underlying type, which in MSVC means
`int`). -/
inductive CType where
  | dword
  | word
  | byteT
  | boolT
  | shortT
  | int16T
  | uintT
  | charT
  | enumNamed (nm : String) (base : String)
  | arr (t : CType) (n : Nat)
deriving DecidableEq, Repr

/-- Size in bytes of an enum underlying type as written in the header;
an empty string means no explicit base, which MSVC lays out as `int`. -/
def enumBaseSize (base : String) : Nat :=
  if base == "short" then 2
  else if base == "unsigned short" then 2
  else if base == "byte" then 1
  else if base == "__int16" then 2
  else 4

/-- sizeof of a C type on the MSVC x86 target these headers address. -/
def ctSize : CType → Nat
  | .dword => 4
  | .word => 2
  | .byteT => 1
  | .boolT => 1
  | .shortT => 2
  | .int16T => 2
  | .uintT => 4
  | .charT => 1
  | .enumNamed _ base => enumBaseSize base
  | .arr t n => n * ctSize t

/-- Natural alignment of a C type: scalars align to their size, arrays to
their element alignment. -/
def ctAlign : CType → Nat
  | .arr t _ => ctAlign t
  | t => ctSize t

/-- A struct member: field name and type as declared. -/
structure CField where
  fname : String
  ty : CType
deriving DecidableEq, Repr

/-- A struct declaration: name, whether it is declared inside the header's
`pragma pack(1)` region, and its fields in source order. -/
structure StructDecl where
  sname : String
  packed : Bool
  fields : List CField
deriving DecidableEq, Repr

/-- Sum of the sizes of all fields (the size of a layout with no padding). -/
def sizeSum (fs : List CField) : Nat :=
  (fs.map (fun f => ctSize f.ty)).sum

/-- Byte offsets of successive fields when members are laid out back to
back starting at `off` (the pack(1) layout). -/
def packedOffsetsFrom (off : Nat) : List CField → List Nat
  | [] => []
  | f :: fs => off :: packedOffsetsFrom (off + ctSize f.ty) fs

/-- pack(1) byte offsets: each field starts where the previous one ends. -/
def packedOffsets (fs : List CField) : List Nat :=
  packedOffsetsFrom 0 fs

/-- Round `off` up to the next multiple of `a`. -/
def alignUp (off a : Nat) : Nat :=
  ((off + a - 1) / a) * a

/-- Byte offsets under default (natural) alignment starting at `off`:
each member is aligned up to its natural alignment. -/
def naturalOffsetsFrom (off : Nat) : List CField → List Nat
  | [] => []
  | f :: fs =>
    let o := alignUp off (ctAlign f.ty)
    o :: naturalOffsetsFrom (o + ctSize f.ty) fs

/-- Default-alignment byte offsets of the fields of a struct. -/
def naturalOffsets (fs : List CField) : List Nat :=
  naturalOffsetsFrom 0 fs

/-- The byte following the last member under default alignment. -/
def naturalEnd (off : Nat) : List CField → Nat
  | [] => off
  | f :: fs => naturalEnd (alignUp off (ctAlign f.ty) + ctSize f.ty) fs

/-- Largest member alignment (at least 1), governing tail padding. -/
def maxAlign (fs : List CField) : Nat :=
  fs.foldl (fun m f => max m (ctAlign f.ty)) 1

/-- sizeof under default alignment: end of the members rounded up to the
largest member alignment. -/
def naturalSize (fs : List CField) : Nat :=
  alignUp (naturalEnd 0 fs) (maxAlign fs)

/-- Field offsets as the header declares them: pack(1) layout inside the
pack region, default layout outside it. -/
def declaredOffsets (s : StructDecl) : List Nat :=
  if s.packed then packedOffsets s.fields else naturalOffsets s.fields

/-- sizeof as the header declares it. -/
def declaredSize (s : StructDecl) : Nat :=
  if s.packed then sizeSum s.fields else naturalSize s.fields

/-- A struct whose declared layout has no padding at all: every field
starts exactly where the previous one ends, and sizeof is the plain sum of
the field sizes. -/
def noPaddingLayout (s : StructDecl) : Bool :=
  declaredOffsets s == packedOffsets s.fields && declaredSize s == sizeSum s.fields

/-- An enum declaration: name, underlying type as written (`""` if none),
and the enumerators with their values in source order. -/
structure EnumDecl where
  ename : String
  base : String
  values : List (String × Nat)
deriving DecidableEq, Repr

/-- The documented return convention of a prototype, read off its
`returns` documentation comment. -/
inductive RetDoc where
  /-- Documented as: the error code, or zero if successful. -/
  | errorCodeZeroSuccess
  /-- Documented as: 1 if successful, 0 if not. -/
  | oneIfSuccessful
  /-- Documented as: true if successful, false if not. -/
  | boolSuccess
  /-- Documented as returning a plain value (count, version, reading...). -/
  | valueDoc
  /-- No returns documentation (the void prototypes). -/
  | noDoc
deriving DecidableEq, Repr

/-- One function prototype from an `extern C` block: name, export macro
token, calling convention token, return type, parameter list as written
between the parentheses, documented return convention, and whether the
declaration carries a function body (none does; each prototype ends in a
semicolon). -/
structure FunDecl where
  name : String
  api : String
  conv : String
  ret : String
  params : String
  retDoc : RetDoc
  hasBody : Bool
deriving DecidableEq, Repr

/-- `leadMatches p s` is true when `p` is an initial run of `s`. -/
def leadMatches : List Char → List Char → Bool
  | [], _ => true
  | _ :: _, [] => false
  | a :: as, b :: bs => a == b && leadMatches as bs

/-- `subOccurs p s` is true when `p` occurs contiguously inside `s`. -/
def subOccurs (p : List Char) : List Char → Bool
  | [] => leadMatches p []
  | c :: cs => leadMatches p (c :: cs) || subOccurs p cs

/-- String containment used to pick out the message-queue and polling
prototypes by name. -/
def strHasSub (s pat : String) : Bool :=
  subOccurs pat.data s.data

/-- Lookup the documented return convention of the prototype named `n`. -/
def retDocOf (ds : List FunDecl) (n : String) : Option RetDoc :=
  (ds.find? (fun d => d.name == n)).map (fun d => d.retDoc)

/-- Names of all prototypes in declaration order. -/
def declNames (ds : List FunDecl) : List String :=
  ds.map (fun d => d.name)

end ThorlabsHeaders

namespace ThorlabsHeaders

/-! ### Thorlabs.MotionControl.KCube.LaserSource.h -/

namespace KLS

/-- The export macro of the laser-source header: `dllexport` when the DLL
itself is being built (`KLASERSOURCEDLL_EXPORTS` defined), `dllimport`
for every consumer. -/
def KLASERSOURCE_API (KLASERSOURCEDLL_EXPORTS : Bool) : String :=
  if KLASERSOURCEDLL_EXPORTS then "__declspec(dllexport)" else "__declspec(dllimport)"

/-- enum FT_Status : short, laser-source header. -/
def FT_Status : EnumDecl :=
  { ename := "FT_Status", base := "short",
    values := [
      ("FT_OK", 0x00),
      ("FT_InvalidHandle", 0x01),
      ("FT_DeviceNotFound", 0x02),
      ("FT_DeviceNotOpened", 0x03),
      ("FT_IOError", 0x04),
      ("FT_InsufficientResources", 0x05),
      ("FT_InvalidParameter", 0x06),
      ("FT_DeviceNotPresent", 0x07),
      ("FT_IncorrectDevice", 0x08) ] }

/-- enum MOT_MotorTypes (no explicit underlying type), laser-source header. -/
def MOT_MotorTypes : EnumDecl :=
  { ename := "MOT_MotorTypes", base := "",
    values := [
      ("MOT_NotMotor", 0),
      ("MOT_DCMotor", 1),
      ("MOT_StepperMotor", 2),
      ("MOT_BrushlessMotor", 3),
      ("MOT_CustomMotor", 100) ] }

/-- enum LS_InputSourceFlags : unsigned short. -/
def LS_InputSourceFlags : EnumDecl :=
  { ename := "LS_InputSourceFlags", base := "unsigned short",
    values := [
      ("LS_SoftwareOnly", 0),
      ("LS_ExternalSignal", 0x01),
      ("LS_Potentiometer", 0x04) ] }

/-- enum KLS_OpMode : unsigned short. -/
def KLS_OpMode : EnumDecl :=
  { ename := "KLS_OpMode", base := "unsigned short",
    values := [
      ("KLS_ConstantPower", 0),
      ("KLS_ConstantCurrent", 1) ] }

/-- enum KLS_TriggerMode : unsigned short. -/
def KLS_TriggerMode : EnumDecl :=
  { ename := "KLS_TriggerMode", base := "unsigned short",
    values := [
      ("KLS_Disabled", 0),
      ("KLS_Input", 1),
      ("KLS_ModulationTrigger", 2),
      ("KLS_SetPower", 3),
      ("KLS_Output", 0x0a),
      ("KLS_LaserOn", 0x0b),
      ("KLS_InterlockEnabled", 0x0c),
      ("KLS_SetPointChange", 0x0d),
      ("KLS_HighStability", 0x0e),
      ("KLS_LowStability", 0x0f) ] }

/-- enum KLS_TrigPolarity : unsigned short. -/
def KLS_TrigPolarity : EnumDecl :=
  { ename := "KLS_TrigPolarity", base := "unsigned short",
    values := [
      ("KLS_TrigPol_High", 0x01),
      ("KLS_TrigPol_Low", 0x02) ] }

/-- struct TLI_DeviceInfo, declared inside the pack(1) region
(lines 64-126 of the laser-source header). -/
def TLI_DeviceInfo : StructDecl :=
  { sname := "TLI_DeviceInfo", packed := true,
    fields := [
      ⟨"typeID", .dword⟩,
      ⟨"description", .arr .charT 65⟩,
      ⟨"serialNo", .arr .charT 9⟩,
      ⟨"PID", .dword⟩,
      ⟨"isKnownType", .boolT⟩,
      ⟨"motorType", .enumNamed "MOT_MotorTypes" ""⟩,
      ⟨"isPiezoDevice", .boolT⟩,
      ⟨"isLaser", .boolT⟩,
      ⟨"isCustomType", .boolT⟩,
      ⟨"isRack", .boolT⟩,
      ⟨"maxChannels", .shortT⟩ ] }

/-- struct TLI_HardwareInformation, declared inside the pack(1) region. -/
def TLI_HardwareInformation : StructDecl :=
  { sname := "TLI_HardwareInformation", packed := true,
    fields := [
      ⟨"serialNumber", .dword⟩,
      ⟨"modelNumber", .arr .charT 8⟩,
      ⟨"type", .word⟩,
      ⟨"firmwareVersion", .dword⟩,
      ⟨"notes", .arr .charT 48⟩,
      ⟨"deviceDependantData", .arr .byteT 12⟩,
      ⟨"hardwareVersion", .word⟩,
      ⟨"modificationState", .word⟩,
      ⟨"numChannels", .shortT⟩ ] }

/-- struct KLS_MMIParams, declared after the `pragma pack()` at line 126
that closes the pack(1) region, hence under default alignment. -/
def KLS_MMIParams : StructDecl :=
  { sname := "KLS_MMIParams", packed := false,
    fields := [
      ⟨"displayIntensity", .int16T⟩,
      ⟨"reserved", .arr .int16T 3⟩ ] }

/-- struct KLS_TrigIOParams, declared after the `pragma pack()` at line
126, hence under default alignment. -/
def KLS_TrigIOParams : StructDecl :=
  { sname := "KLS_TrigIOParams", packed := false,
    fields := [
      ⟨"mode1", .enumNamed "KLS_TriggerMode" "unsigned short"⟩,
      ⟨"polarity1", .enumNamed "KLS_TrigPolarity" "unsigned short"⟩,
      ⟨"power1", .int16T⟩,
      ⟨"mode2", .enumNamed "KLS_TriggerMode" "unsigned short"⟩,
      ⟨"polarity2", .enumNamed "KLS_TrigPolarity" "unsigned short"⟩,
      ⟨"power2", .int16T⟩ ] }

/-- The 65 function prototypes of the laser-source header, in source
order.  Fields: name, export macro, calling convention, return type,
parameter list as written, documented return convention, has a body. -/
def decls : List FunDecl := [
  ⟨"TLI_BuildDeviceList", "KLASERSOURCE_API", "__cdecl", "short", "void", .errorCodeZeroSuccess, false⟩,
  ⟨"TLI_GetDeviceListSize", "KLASERSOURCE_API", "__cdecl", "short", "", .valueDoc, false⟩,
  ⟨"TLI_GetDeviceList", "KLASERSOURCE_API", "__cdecl", "short", "SAFEARRAY** stringsReceiver", .errorCodeZeroSuccess, false⟩,
  ⟨"TLI_GetDeviceListByType", "KLASERSOURCE_API", "__cdecl", "short", "SAFEARRAY** stringsReceiver, int typeID", .errorCodeZeroSuccess, false⟩,
  ⟨"TLI_GetDeviceListByTypes", "KLASERSOURCE_API", "__cdecl", "short", "SAFEARRAY** stringsReceiver, int * typeIDs, int length", .errorCodeZeroSuccess, false⟩,
  ⟨"TLI_GetDeviceListExt", "KLASERSOURCE_API", "__cdecl", "short", "char *receiveBuffer, DWORD sizeOfBuffer", .errorCodeZeroSuccess, false⟩,
  ⟨"TLI_GetDeviceListByTypeExt", "KLASERSOURCE_API", "__cdecl", "short", "char *receiveBuffer, DWORD sizeOfBuffer, int typeID", .errorCodeZeroSuccess, false⟩,
  ⟨"TLI_GetDeviceListByTypesExt", "KLASERSOURCE_API", "__cdecl", "short", "char *receiveBuffer, DWORD sizeOfBuffer, int * typeIDs, int length", .errorCodeZeroSuccess, false⟩,
  ⟨"TLI_GetDeviceInfo", "KLASERSOURCE_API", "__cdecl", "short", "char const * serialNo, TLI_DeviceInfo *info", .oneIfSuccessful, false⟩,
  ⟨"LS_Open", "KLASERSOURCE_API", "__cdecl", "short", "char const * serialNo", .errorCodeZeroSuccess, false⟩,
  ⟨"LS_Close", "KLASERSOURCE_API", "__cdecl", "void", "char const * serialNo", .noDoc, false⟩,
  ⟨"LS_CheckConnection", "KLASERSOURCE_API", "__cdecl", "bool", "char const * serialNo", .valueDoc, false⟩,
  ⟨"LS_Identify", "KLASERSOURCE_API", "__cdecl", "void", "char const * serialNo", .noDoc, false⟩,
  ⟨"LS_GetHardwareInfo", "KLASERSOURCE_API", "__cdecl", "short", "char const * serialNo, char * modelNo, DWORD sizeOfModelNo, WORD * type, WORD * numChannels, char * notes, DWORD sizeOfNotes, DWORD * firmwareVersion, WORD * hardwareVersion, WORD * modificationState", .errorCodeZeroSuccess, false⟩,
  ⟨"LS_GetHardwareInfoBlock", "KLASERSOURCE_API", "__cdecl", "short", "char const *serialNo, TLI_HardwareInformation *hardwareInfo", .errorCodeZeroSuccess, false⟩,
  ⟨"LS_GetFirmwareVersion", "KLASERSOURCE_API", "__cdecl", "DWORD", "char const * serialNo", .valueDoc, false⟩,
  ⟨"LS_GetSoftwareVersion", "KLASERSOURCE_API", "__cdecl", "DWORD", "char const * serialNo", .valueDoc, false⟩,
  ⟨"LS_LoadSettings", "KLASERSOURCE_API", "__cdecl", "bool", "char const * serialNo", .boolSuccess, false⟩,
  ⟨"LS_PersistSettings", "KLASERSOURCE_API", "__cdecl", "bool", "char const * serialNo", .boolSuccess, false⟩,
  ⟨"LS_Disable", "KLASERSOURCE_API", "__cdecl", "short", "char const * serialNo", .errorCodeZeroSuccess, false⟩,
  ⟨"LS_Enable", "KLASERSOURCE_API", "__cdecl", "short", "char const * serialNo", .errorCodeZeroSuccess, false⟩,
  ⟨"LS_ClearMessageQueue", "KLASERSOURCE_API", "__cdecl", "void", "char const * serialNo", .noDoc, false⟩,
  ⟨"LS_RegisterMessageCallback", "KLASERSOURCE_API", "__cdecl", "void", "char const * serialNo, void (* functionPointer)()", .noDoc, false⟩,
  ⟨"LS_MessageQueueSize", "KLASERSOURCE_API", "__cdecl", "int", "char const * serialNo", .valueDoc, false⟩,
  ⟨"LS_GetNextMessage", "KLASERSOURCE_API", "__cdecl", "bool", "char const * serialNo, WORD * messageType, WORD * messageID, DWORD *messageData", .boolSuccess, false⟩,
  ⟨"LS_WaitForMessage", "KLASERSOURCE_API", "__cdecl", "bool", "char const * serialNo, WORD * messageType, WORD * messageID, DWORD *messageData", .boolSuccess, false⟩,
  ⟨"LS_DisableOutput", "KLASERSOURCE_API", "__cdecl", "short", "char const * serialNo", .errorCodeZeroSuccess, false⟩,
  ⟨"LS_EnableOutput", "KLASERSOURCE_API", "__cdecl", "short", "char const * serialNo", .errorCodeZeroSuccess, false⟩,
  ⟨"LS_RequestControlSource", "KLASERSOURCE_API", "__cdecl", "short", "char const * serialNo", .errorCodeZeroSuccess, false⟩,
  ⟨"LS_GetControlSource", "KLASERSOURCE_API", "__cdecl", "LS_InputSourceFlags", "char const * serialNo", .valueDoc, false⟩,
  ⟨"LS_SetControlSource", "KLASERSOURCE_API", "__cdecl", "short", "char const * serialNo, LS_InputSourceFlags source", .errorCodeZeroSuccess, false⟩,
  ⟨"LS_RequestMMIParams", "KLASERSOURCE_API", "__cdecl", "short", "char const * serialNo", .errorCodeZeroSuccess, false⟩,
  ⟨"LS_GetMMIParams", "KLASERSOURCE_API", "__cdecl", "short", "char const * serialNo", .valueDoc, false⟩,
  ⟨"LS_SetMMIParams", "KLASERSOURCE_API", "__cdecl", "short", "char const * serialNo, short dispIntensity", .errorCodeZeroSuccess, false⟩,
  ⟨"LS_GetMMIParamsBlock", "KLASERSOURCE_API", "__cdecl", "short", "char const * serialNo, KLS_MMIParams *params", .errorCodeZeroSuccess, false⟩,
  ⟨"LS_SetMMIParamsBlock", "KLASERSOURCE_API", "__cdecl", "short", "char const * serialNo, KLS_MMIParams *params", .errorCodeZeroSuccess, false⟩,
  ⟨"LS_RequestOPMode", "KLASERSOURCE_API", "__cdecl", "short", "char const * serialNo", .errorCodeZeroSuccess, false⟩,
  ⟨"LS_GetOPMode", "KLASERSOURCE_API", "__cdecl", "short", "char const * serialNo, KLS_OpMode *mode", .errorCodeZeroSuccess, false⟩,
  ⟨"LS_SetOPMode", "KLASERSOURCE_API", "__cdecl", "short", "char const * serialNo, KLS_OpMode mode", .errorCodeZeroSuccess, false⟩,
  ⟨"LS_RequestTrigIOParams", "KLASERSOURCE_API", "__cdecl", "short", "char const * serialNo", .errorCodeZeroSuccess, false⟩,
  ⟨"LS_GetTrigIOParams", "KLASERSOURCE_API", "__cdecl", "short", "char const * serialNo, KLS_TriggerMode *mode1, KLS_TrigPolarity *polarity1, short *power1, KLS_TriggerMode *mode2, KLS_TrigPolarity *polarity2, short *power2", .errorCodeZeroSuccess, false⟩,
  ⟨"LS_SetTrigIOParams", "KLASERSOURCE_API", "__cdecl", "short", "char const * serialNo, KLS_TriggerMode mode1, KLS_TrigPolarity polarity1, short power1, KLS_TriggerMode mode2, KLS_TrigPolarity polarity2, short power2", .errorCodeZeroSuccess, false⟩,
  ⟨"LS_GetTrigIOParamsBlock", "KLASERSOURCE_API", "__cdecl", "short", "char const * serialNo, KLS_TrigIOParams *params", .errorCodeZeroSuccess, false⟩,
  ⟨"LS_SetTrigIOParamsBlock", "KLASERSOURCE_API", "__cdecl", "short", "char const * serialNo, KLS_TrigIOParams *params", .errorCodeZeroSuccess, false⟩,
  ⟨"LS_GetInterlockState", "KLASERSOURCE_API", "__cdecl", "BYTE", "char const * serialNo", .valueDoc, false⟩,
  ⟨"LS_RequestLimits", "KLASERSOURCE_API", "__cdecl", "short", "char const * serialNo", .errorCodeZeroSuccess, false⟩,
  ⟨"LS_RequestWavelength", "KLASERSOURCE_API", "__cdecl", "short", "char const * serialNo", .errorCodeZeroSuccess, false⟩,
  ⟨"LS_GetWavelength", "KLASERSOURCE_API", "__cdecl", "WORD", "char const * serialNo", .valueDoc, false⟩,
  ⟨"LS_GetLimits", "KLASERSOURCE_API", "__cdecl", "short", "char const * serialNo, WORD &maxPower, WORD &maxCurrent", .errorCodeZeroSuccess, false⟩,
  ⟨"LS_RequestSetPower", "KLASERSOURCE_API", "__cdecl", "short", "char const * serialNo", .errorCodeZeroSuccess, false⟩,
  ⟨"LS_GetPowerSet", "KLASERSOURCE_API", "__cdecl", "WORD", "char const * serialNo", .valueDoc, false⟩,
  ⟨"LS_SetPower", "KLASERSOURCE_API", "__cdecl", "short", "char const * serialNo, WORD power", .errorCodeZeroSuccess, false⟩,
  ⟨"LS_RequestStatus", "KLASERSOURCE_API", "__cdecl", "short", "char const * serialNo", .errorCodeZeroSuccess, false⟩,
  ⟨"LS_RequestReadings", "KLASERSOURCE_API", "__cdecl", "short", "char const * serialNo", .errorCodeZeroSuccess, false⟩,
  ⟨"LS_RequestStatusBits", "KLASERSOURCE_API", "__cdecl", "short", "char const * serialNo", .errorCodeZeroSuccess, false⟩,
  ⟨"LS_GetPowerReading", "KLASERSOURCE_API", "__cdecl", "WORD", "char const * serialNo", .valueDoc, false⟩,
  ⟨"LS_GetCurrentReading", "KLASERSOURCE_API", "__cdecl", "WORD", "char const * serialNo", .valueDoc, false⟩,
  ⟨"LS_GetStatusBits", "KLASERSOURCE_API", "__cdecl", "DWORD", "char const * serialNo", .valueDoc, false⟩,
  ⟨"LS_StartPolling", "KLASERSOURCE_API", "__cdecl", "bool", "char const * serialNo, int milliseconds", .boolSuccess, false⟩,
  ⟨"LS_PollingDuration", "KLASERSOURCE_API", "__cdecl", "long", "char const * serialNo", .valueDoc, false⟩,
  ⟨"LS_StopPolling", "KLASERSOURCE_API", "__cdecl", "void", "char const * serialNo", .noDoc, false⟩,
  ⟨"LS_TimeSinceLastMsgReceived", "KLASERSOURCE_API", "__cdecl", "bool", "char const * serialNo, __int64 &lastUpdateTimeMS", .valueDoc, false⟩,
  ⟨"LS_EnableLastMsgTimer", "KLASERSOURCE_API", "__cdecl", "void", "char const * serialNo, bool enable, __int32 lastMsgTimeout", .noDoc, false⟩,
  ⟨"LS_HasLastMsgTimerOverrun", "KLASERSOURCE_API", "__cdecl", "bool", "char const * serialNo", .valueDoc, false⟩,
  ⟨"LS_RequestSettings", "KLASERSOURCE_API", "__cdecl", "short", "char const * serialNo", .errorCodeZeroSuccess, false⟩ ]

end KLS

/-! ### Thorlabs.MotionControl.KCube.Solenoid.h -/

namespace KSC

/-- The export macro of the solenoid header: `dllexport` when the DLL
itself is being built (`KCUBESOLENOIDDLL_EXPORTS` defined), `dllimport`
for every consumer. -/
def KCUBESOLENOID_API (KCUBESOLENOIDDLL_EXPORTS : Bool) : String :=
  if KCUBESOLENOIDDLL_EXPORTS then "__declspec(dllexport)" else "__declspec(dllimport)"

/-- enum FT_Status : short, solenoid header. -/
def FT_Status : EnumDecl :=
  { ename := "FT_Status", base := "short",
    values := [
      ("FT_OK", 0x00),
      ("FT_InvalidHandle", 0x01),
      ("FT_DeviceNotFound", 0x02),
      ("FT_DeviceNotOpened", 0x03),
      ("FT_IOError", 0x04),
      ("FT_InsufficientResources", 0x05),
      ("FT_InvalidParameter", 0x06),
      ("FT_DeviceNotPresent", 0x07),
      ("FT_IncorrectDevice", 0x08) ] }

/-- enum MOT_MotorTypes (no explicit underlying type), solenoid header. -/
def MOT_MotorTypes : EnumDecl :=
  { ename := "MOT_MotorTypes", base := "",
    values := [
      ("MOT_NotMotor", 0),
      ("MOT_DCMotor", 1),
      ("MOT_StepperMotor", 2),
      ("MOT_BrushlessMotor", 3),
      ("MOT_CustomMotor", 100) ] }

/-- enum SC_OperatingModes : byte. -/
def SC_OperatingModes : EnumDecl :=
  { ename := "SC_OperatingModes", base := "byte",
    values := [
      ("SC_Manual", 0x01),
      ("SC_Single", 0x02),
      ("SC_Auto", 0x03),
      ("SC_Triggered", 0x04) ] }

/-- enum SC_OperatingStates : byte. -/
def SC_OperatingStates : EnumDecl :=
  { ename := "SC_OperatingStates", base := "byte",
    values := [
      ("SC_Active", 0x01),
      ("SC_Inactive", 0x02) ] }

/-- enum SC_SolenoidStates : byte. -/
def SC_SolenoidStates : EnumDecl :=
  { ename := "SC_SolenoidStates", base := "byte",
    values := [
      ("SC_SolenoidOpen", 0x01),
      ("SC_SolenoidClosed", 0x02) ] }

/-- enum KSC_TriggerPortMode : __int16. -/
def KSC_TriggerPortMode : EnumDecl :=
  { ename := "KSC_TriggerPortMode", base := "__int16",
    values := [
      ("KSC_TrigDisabled", 0x00),
      ("KSC_TrigIn_GPI", 0x01),
      ("KSC_TrigOut_GPO", 0x0A) ] }

/-- enum KSC_TriggerPortPolarity : __int16. -/
def KSC_TriggerPortPolarity : EnumDecl :=
  { ename := "KSC_TriggerPortPolarity", base := "__int16",
    values := [
      ("KSC_TrigPolarityHigh", 0x01),
      ("KSC_TrigPolarityLow", 0x02) ] }

/-- struct TLI_DeviceInfo, declared inside the pack(1) region
(lines 63-253 of the solenoid header). -/
def TLI_DeviceInfo : StructDecl :=
  { sname := "TLI_DeviceInfo", packed := true,
    fields := [
      ⟨"typeID", .dword⟩,
      ⟨"description", .arr .charT 65⟩,
      ⟨"serialNo", .arr .charT 9⟩,
      ⟨"PID", .dword⟩,
      ⟨"isKnownType", .boolT⟩,
      ⟨"motorType", .enumNamed "MOT_MotorTypes" ""⟩,
      ⟨"isPiezoDevice", .boolT⟩,
      ⟨"isLaser", .boolT⟩,
      ⟨"isCustomType", .boolT⟩,
      ⟨"isRack", .boolT⟩,
      ⟨"maxChannels", .shortT⟩ ] }

/-- struct TLI_HardwareInformation, declared inside the pack(1) region. -/
def TLI_HardwareInformation : StructDecl :=
  { sname := "TLI_HardwareInformation", packed := true,
    fields := [
      ⟨"serialNumber", .dword⟩,
      ⟨"modelNumber", .arr .charT 8⟩,
      ⟨"type", .word⟩,
      ⟨"firmwareVersion", .dword⟩,
      ⟨"notes", .arr .charT 48⟩,
      ⟨"deviceDependantData", .arr .byteT 12⟩,
      ⟨"hardwareVersion", .word⟩,
      ⟨"modificationState", .word⟩,
      ⟨"numChannels", .shortT⟩ ] }

/-- struct SC_CycleParameters, declared inside the pack(1) region. -/
def SC_CycleParameters : StructDecl :=
  { sname := "SC_CycleParameters", packed := true,
    fields := [
      ⟨"openTime", .uintT⟩,
      ⟨"closedTime", .uintT⟩,
      ⟨"numCycles", .uintT⟩ ] }

/-- struct KSC_MMIParams, declared inside the pack(1) region. -/
def KSC_MMIParams : StructDecl :=
  { sname := "KSC_MMIParams", packed := true,
    fields := [
      ⟨"unused", .arr .int16T 10⟩,
      ⟨"DisplayIntensity", .int16T⟩,
      ⟨"DisplayTimeout", .int16T⟩,
      ⟨"DisplayDimIntensity", .int16T⟩,
      ⟨"reserved", .arr .int16T 4⟩ ] }

/-- struct KSC_TriggerConfig, declared inside the pack(1) region, which
closes with the `pragma pack()` at line 253 directly after it. -/
def KSC_TriggerConfig : StructDecl :=
  { sname := "KSC_TriggerConfig", packed := true,
    fields := [
      ⟨"Trigger1Mode", .enumNamed "KSC_TriggerPortMode" "__int16"⟩,
      ⟨"Trigger1Polarity", .enumNamed "KSC_TriggerPortPolarity" "__int16"⟩,
      ⟨"Trigger2Mode", .enumNamed "KSC_TriggerPortMode" "__int16"⟩,
      ⟨"Trigger2Polarity", .enumNamed "KSC_TriggerPortPolarity" "__int16"⟩,
      ⟨"reserved", .arr .int16T 6⟩ ] }

/-- The 65 function prototypes of the solenoid header, in source order.
Fields: name, export macro, calling convention, return type, parameter
list as written, documented return convention, has a body. -/
def decls : List FunDecl := [
  ⟨"TLI_BuildDeviceList", "KCUBESOLENOID_API", "__cdecl", "short", "void", .errorCodeZeroSuccess, false⟩,
  ⟨"TLI_GetDeviceListSize", "KCUBESOLENOID_API", "__cdecl", "short", "", .valueDoc, false⟩,
  ⟨"TLI_GetDeviceList", "KCUBESOLENOID_API", "__cdecl", "short", "SAFEARRAY** stringsReceiver", .errorCodeZeroSuccess, false⟩,
  ⟨"TLI_GetDeviceListByType", "KCUBESOLENOID_API", "__cdecl", "short", "SAFEARRAY** stringsReceiver, int typeID", .errorCodeZeroSuccess, false⟩,
  ⟨"TLI_GetDeviceListByTypes", "KCUBESOLENOID_API", "__cdecl", "short", "SAFEARRAY** stringsReceiver, int * typeIDs, int length", .errorCodeZeroSuccess, false⟩,
  ⟨"TLI_GetDeviceListExt", "KCUBESOLENOID_API", "__cdecl", "short", "char *receiveBuffer, DWORD sizeOfBuffer", .errorCodeZeroSuccess, false⟩,
  ⟨"TLI_GetDeviceListByTypeExt", "KCUBESOLENOID_API", "__cdecl", "short", "char *receiveBuffer, DWORD sizeOfBuffer, int typeID", .errorCodeZeroSuccess, false⟩,
  ⟨"TLI_GetDeviceListByTypesExt", "KCUBESOLENOID_API", "__cdecl", "short", "char *receiveBuffer, DWORD sizeOfBuffer, int * typeIDs, int length", .errorCodeZeroSuccess, false⟩,
  ⟨"TLI_GetDeviceInfo", "KCUBESOLENOID_API", "__cdecl", "short", "char const * serialNo, TLI_DeviceInfo *info", .oneIfSuccessful, false⟩,
  ⟨"SC_Open", "KCUBESOLENOID_API", "__cdecl", "short", "char const * serialNo", .errorCodeZeroSuccess, false⟩,
  ⟨"SC_Close", "KCUBESOLENOID_API", "__cdecl", "void", "char const * serialNo", .noDoc, false⟩,
  ⟨"SC_CheckConnection", "KCUBESOLENOID_API", "__cdecl", "bool", "char const * serialNo", .valueDoc, false⟩,
  ⟨"SC_Identify", "KCUBESOLENOID_API", "__cdecl", "void", "char const * serialNo", .noDoc, false⟩,
  ⟨"SC_RequestLEDswitches", "KCUBESOLENOID_API", "__cdecl", "short", "char const * serialNo", .errorCodeZeroSuccess, false⟩,
  ⟨"SC_GetLEDswitches", "KCUBESOLENOID_API", "__cdecl", "WORD", "char const * serialNo", .valueDoc, false⟩,
  ⟨"SC_SetLEDswitches", "KCUBESOLENOID_API", "__cdecl", "short", "char const * serialNo, WORD LEDswitches", .errorCodeZeroSuccess, false⟩,
  ⟨"SC_GetHardwareInfo", "KCUBESOLENOID_API", "__cdecl", "short", "char const * serialNo, char * modelNo, DWORD sizeOfModelNo, WORD * type, WORD * numChannels, char * notes, DWORD sizeOfNotes, DWORD * firmwareVersion, WORD * hardwareVersion, WORD * modificationState", .errorCodeZeroSuccess, false⟩,
  ⟨"SC_GetHardwareInfoBlock", "KCUBESOLENOID_API", "__cdecl", "short", "char const *serialNo, TLI_HardwareInformation *hardwareInfo", .errorCodeZeroSuccess, false⟩,
  ⟨"SC_RequestHubBay", "KCUBESOLENOID_API", "__cdecl", "short", "char const * serialNo", .errorCodeZeroSuccess, false⟩,
  ⟨"SC_GetHubBay", "KCUBESOLENOID_API", "__cdecl", "char", "char const * serialNo", .valueDoc, false⟩,
  ⟨"SC_GetSoftwareVersion", "KCUBESOLENOID_API", "__cdecl", "DWORD", "char const * serialNo", .valueDoc, false⟩,
  ⟨"SC_LoadSettings", "KCUBESOLENOID_API", "__cdecl", "bool", "char const * serialNo", .boolSuccess, false⟩,
  ⟨"SC_PersistSettings", "KCUBESOLENOID_API", "__cdecl", "bool", "char const * serialNo", .boolSuccess, false⟩,
  ⟨"SC_ClearMessageQueue", "KCUBESOLENOID_API", "__cdecl", "void", "char const * serialNo", .noDoc, false⟩,
  ⟨"SC_RegisterMessageCallback", "KCUBESOLENOID_API", "__cdecl", "void", "char const * serialNo, void (* functionPointer)()", .noDoc, false⟩,
  ⟨"SC_MessageQueueSize", "KCUBESOLENOID_API", "__cdecl", "int", "char const * serialNo", .valueDoc, false⟩,
  ⟨"SC_GetNextMessage", "KCUBESOLENOID_API", "__cdecl", "bool", "char const * serialNo, WORD * messageType, WORD * messageID, DWORD *messageData", .boolSuccess, false⟩,
  ⟨"SC_WaitForMessage", "KCUBESOLENOID_API", "__cdecl", "bool", "char const * serialNo, WORD * messageType, WORD * messageID, DWORD *messageData", .boolSuccess, false⟩,
  ⟨"SC_StartPolling", "KCUBESOLENOID_API", "__cdecl", "bool", "char const * serialNo, int milliseconds", .boolSuccess, false⟩,
  ⟨"SC_PollingDuration", "KCUBESOLENOID_API", "__cdecl", "long", "char const * serialNo", .valueDoc, false⟩,
  ⟨"SC_StopPolling", "KCUBESOLENOID_API", "__cdecl", "void", "char const * serialNo", .noDoc, false⟩,
  ⟨"SC_TimeSinceLastMsgReceived", "KCUBESOLENOID_API", "__cdecl", "bool", "char const * serialNo, __int64 &lastUpdateTimeMS", .valueDoc, false⟩,
  ⟨"SC_EnableLastMsgTimer", "KCUBESOLENOID_API", "__cdecl", "void", "char const * serialNo, bool enable, __int32 lastMsgTimeout", .noDoc, false⟩,
  ⟨"SC_HasLastMsgTimerOverrun", "KCUBESOLENOID_API", "__cdecl", "bool", "char const * serialNo", .valueDoc, false⟩,
  ⟨"SC_RequestSettings", "KCUBESOLENOID_API", "__cdecl", "short", "char const * serialNo", .errorCodeZeroSuccess, false⟩,
  ⟨"SC_RequestStatus", "KCUBESOLENOID_API", "__cdecl", "short", "char const * serialNo", .errorCodeZeroSuccess, false⟩,
  ⟨"SC_RequestStatusBits", "KCUBESOLENOID_API", "__cdecl", "short", "char const * serialNo", .errorCodeZeroSuccess, false⟩,
  ⟨"SC_GetStatusBits", "KCUBESOLENOID_API", "__cdecl", "DWORD", "char const * serialNo", .valueDoc, false⟩,
  ⟨"SC_RequestOperatingMode", "KCUBESOLENOID_API", "__cdecl", "short", "char const * serialNo", .errorCodeZeroSuccess, false⟩,
  ⟨"SC_GetOperatingMode", "KCUBESOLENOID_API", "__cdecl", "SC_OperatingModes", "char const * serialNo", .valueDoc, false⟩,
  ⟨"SC_SetOperatingMode", "KCUBESOLENOID_API", "__cdecl", "short", "char const * serialNo, SC_OperatingModes mode", .errorCodeZeroSuccess, false⟩,
  ⟨"SC_GetSolenoidState", "KCUBESOLENOID_API", "__cdecl", "SC_SolenoidStates", "char const * serialNo", .valueDoc, false⟩,
  ⟨"SC_RequestOperatingState", "KCUBESOLENOID_API", "__cdecl", "short", "char const * serialNo", .errorCodeZeroSuccess, false⟩,
  ⟨"SC_GetOperatingState", "KCUBESOLENOID_API", "__cdecl", "SC_OperatingStates", "char const * serialNo", .valueDoc, false⟩,
  ⟨"SC_SetOperatingState", "KCUBESOLENOID_API", "__cdecl", "short", "char const * serialNo, SC_OperatingStates state", .errorCodeZeroSuccess, false⟩,
  ⟨"SC_RequestCycleParams", "KCUBESOLENOID_API", "__cdecl", "short", "char const * serialNo", .errorCodeZeroSuccess, false⟩,
  ⟨"SC_GetCycleParams", "KCUBESOLENOID_API", "__cdecl", "short", "char const * serialNo, unsigned int * onTime, unsigned int * offTime, unsigned int * numCycles", .errorCodeZeroSuccess, false⟩,
  ⟨"SC_SetCycleParams", "KCUBESOLENOID_API", "__cdecl", "short", "char const * serialNo, unsigned int onTime, unsigned int offTime, unsigned int numCycles", .errorCodeZeroSuccess, false⟩,
  ⟨"SC_GetCycleParamsBlock", "KCUBESOLENOID_API", "__cdecl", "short", "const char * serialNo, SC_CycleParameters *cycleParams", .errorCodeZeroSuccess, false⟩,
  ⟨"SC_SetCycleParamsBlock", "KCUBESOLENOID_API", "__cdecl", "short", "const char * serialNo, SC_CycleParameters *cycleParams", .errorCodeZeroSuccess, false⟩,
  ⟨"SC_RequestMMIParams", "KCUBESOLENOID_API", "__cdecl", "short", "char const * serialNo", .errorCodeZeroSuccess, false⟩,
  ⟨"SC_GetMMIParamsExt", "KCUBESOLENOID_API", "__cdecl", "short", "char const * serialNo, __int16 *displayIntensity, __int16 *displayTimeout, __int16 *displayDimIntensity", .errorCodeZeroSuccess, false⟩,
  ⟨"SC_GetMMIParams", "KCUBESOLENOID_API", "__cdecl", "short", "char const * serialNo, __int16 *displayIntensity", .errorCodeZeroSuccess, false⟩,
  ⟨"SC_SetMMIParamsExt", "KCUBESOLENOID_API", "__cdecl", "short", "char const * serialNo, __int16 displayIntensity, __int16 displayTimeout, __int16 displayDimIntensity", .errorCodeZeroSuccess, false⟩,
  ⟨"SC_SetMMIParams", "KCUBESOLENOID_API", "__cdecl", "short", "char const * serialNo, __int16 displayIntensity", .errorCodeZeroSuccess, false⟩,
  ⟨"SC_GetMMIParamsBlock", "KCUBESOLENOID_API", "__cdecl", "short", "char const * serialNo, KSC_MMIParams *mmiParams", .errorCodeZeroSuccess, false⟩,
  ⟨"SC_SetMMIParamsBlock", "KCUBESOLENOID_API", "__cdecl", "short", "char const * serialNo, KSC_MMIParams *mmiParams", .errorCodeZeroSuccess, false⟩,
  ⟨"SC_RequestTriggerConfigParams", "KCUBESOLENOID_API", "__cdecl", "short", "char const * serialNo", .errorCodeZeroSuccess, false⟩,
  ⟨"SC_GetTriggerConfigParams", "KCUBESOLENOID_API", "__cdecl", "short", "char const * serialNo, KSC_TriggerPortMode *trigger1Mode, KSC_TriggerPortPolarity *trigger1Polarity, KSC_TriggerPortMode *trigger2Mode, KSC_TriggerPortPolarity *trigger2Polarity", .errorCodeZeroSuccess, false⟩,
  ⟨"SC_SetTriggerConfigParams", "KCUBESOLENOID_API", "__cdecl", "short", "char const * serialNo, KSC_TriggerPortMode trigger1Mode, KSC_TriggerPortPolarity trigger1Polarity, KSC_TriggerPortMode trigger2Mode, KSC_TriggerPortPolarity trigger2Polarity", .errorCodeZeroSuccess, false⟩,
  ⟨"SC_GetTriggerConfigParamsBlock", "KCUBESOLENOID_API", "__cdecl", "short", "char const * serialNo, KSC_TriggerConfig *triggerConfigParams", .errorCodeZeroSuccess, false⟩,
  ⟨"SC_SetTriggerConfigParamsBlock", "KCUBESOLENOID_API", "__cdecl", "short", "char const * serialNo, KSC_TriggerConfig *triggerConfigParams", .errorCodeZeroSuccess, false⟩,
  ⟨"SC_RequestDigitalOutputs", "KCUBESOLENOID_API", "__cdecl", "short", "char const * serialNo", .errorCodeZeroSuccess, false⟩,
  ⟨"SC_GetDigitalOutputs", "KCUBESOLENOID_API", "__cdecl", "byte", "char const * serialNo", .valueDoc, false⟩,
  ⟨"SC_SetDigitalOutputs", "KCUBESOLENOID_API", "__cdecl", "short", "char const * serialNo, byte outputsBits", .errorCodeZeroSuccess, false⟩ ]

end KSC

/-! ### Claim theorems -/

/-- C1: In both headers the error-code enumeration FT_Status assigns 0 to
success (FT_OK) and exactly the eight nonzero codes 1 through 8, in this
order, to invalid handle, device not found, device not opened, I/O error,
insufficient resources, invalid parameter, device not present, incorrect
device. -/
theorem ft_status_error_taxonomy_C1 :
    KLS.FT_Status.values =
      [("FT_OK", 0), ("FT_InvalidHandle", 1), ("FT_DeviceNotFound", 2),
       ("FT_DeviceNotOpened", 3), ("FT_IOError", 4), ("FT_InsufficientResources", 5),
       ("FT_InvalidParameter", 6), ("FT_DeviceNotPresent", 7), ("FT_IncorrectDevice", 8)] ∧
    KSC.FT_Status.values =
      [("FT_OK", 0), ("FT_InvalidHandle", 1), ("FT_DeviceNotFound", 2),
       ("FT_DeviceNotOpened", 3), ("FT_IOError", 4), ("FT_InsufficientResources", 5),
       ("FT_InvalidParameter", 6), ("FT_DeviceNotPresent", 7), ("FT_IncorrectDevice", 8)] :=
  ⟨rfl, rfl⟩

/-- C2: Every struct the spec names in either header has a declared layout
that is packed without padding: each field starts at the sum of the sizes
of all preceding fields, and sizeof is the plain sum of the field sizes.
This includes KLS_MMIParams and KLS_TrigIOParams of the laser-source
header, which sit after the `pragma pack()` at line 126 and are therefore
laid out under default alignment, where their all-2-byte members still
produce no padding. -/
theorem structs_packed_without_padding_C2 :
    noPaddingLayout KLS.TLI_DeviceInfo = true ∧
    noPaddingLayout KLS.TLI_HardwareInformation = true ∧
    noPaddingLayout KLS.KLS_MMIParams = true ∧
    noPaddingLayout KLS.KLS_TrigIOParams = true ∧
    noPaddingLayout KSC.TLI_DeviceInfo = true ∧
    noPaddingLayout KSC.TLI_HardwareInformation = true ∧
    noPaddingLayout KSC.SC_CycleParameters = true ∧
    noPaddingLayout KSC.KSC_MMIParams = true ∧
    noPaddingLayout KSC.KSC_TriggerConfig = true ∧
    KLS.KLS_MMIParams.packed = false ∧
    KLS.KLS_TrigIOParams.packed = false := by
  decide

/-- C3: Every exported function in either header is a prototype terminated
without a body: no declaration in either transcribed surface carries a
function body. -/
theorem declarations_only_no_bodies_C3 :
    KLS.decls.all (fun d => !d.hasBody) = true ∧
    KSC.decls.all (fun d => !d.hasBody) = true := by
  decide

/-- C4: The declarations shared by the two headers are identical:
FT_Status and MOT_MotorTypes have the same enumerator names and numeric
values in both files, and TLI_DeviceInfo and TLI_HardwareInformation have
the same field names, types, array lengths and field order in both
files. -/
theorem shared_declarations_identical_C4 :
    KLS.FT_Status = KSC.FT_Status ∧
    KLS.MOT_MotorTypes = KSC.MOT_MotorTypes ∧
    KLS.TLI_DeviceInfo.fields = KSC.TLI_DeviceInfo.fields ∧
    KLS.TLI_HardwareInformation.fields = KSC.TLI_HardwareInformation.fields :=
  ⟨rfl, rfl, rfl, rfl⟩

/-- C5: Every function declared in either header carries the __cdecl
calling convention and the header's explicit DLL import/export macro,
and those macros resolve to `__declspec(dllexport)` when the respective
EXPORTS symbol is defined and `__declspec(dllimport)` otherwise. -/
theorem cdecl_and_export_macro_C5 :
    KLS.KLASERSOURCE_API true = "__declspec(dllexport)" ∧
    KLS.KLASERSOURCE_API false = "__declspec(dllimport)" ∧
    KSC.KCUBESOLENOID_API true = "__declspec(dllexport)" ∧
    KSC.KCUBESOLENOID_API false = "__declspec(dllimport)" ∧
    KLS.decls.all (fun d => d.api == "KLASERSOURCE_API" && d.conv == "__cdecl") = true ∧
    KSC.decls.all (fun d => d.api == "KCUBESOLENOID_API" && d.conv == "__cdecl") = true := by
  decide

/-- C6: Each header's function surface contains all five capability
groups: device discovery (the TLI_BuildDeviceList / TLI_GetDeviceList*
family), connection lifecycle (Open, Close, CheckConnection with the
device prefix), parameter get/set pairs, polling (StartPolling,
StopPolling, PollingDuration), and the asynchronous message queue
(ClearMessageQueue, RegisterMessageCallback, MessageQueueSize,
GetNextMessage, WaitForMessage). -/
theorem five_capability_groups_present_C6 :
    (["TLI_BuildDeviceList", "TLI_GetDeviceListSize", "TLI_GetDeviceList",
      "TLI_GetDeviceListByType", "TLI_GetDeviceListByTypes", "TLI_GetDeviceListExt",
      "TLI_GetDeviceListByTypeExt", "TLI_GetDeviceListByTypesExt",
      "LS_Open", "LS_Close", "LS_CheckConnection",
      "LS_GetMMIParamsBlock", "LS_SetMMIParamsBlock",
      "LS_GetOPMode", "LS_SetOPMode",
      "LS_GetTrigIOParams", "LS_SetTrigIOParams",
      "LS_StartPolling", "LS_StopPolling", "LS_PollingDuration",
      "LS_ClearMessageQueue", "LS_RegisterMessageCallback", "LS_MessageQueueSize",
      "LS_GetNextMessage", "LS_WaitForMessage"].all
        (fun n => (declNames KLS.decls).contains n)) = true ∧
    (["TLI_BuildDeviceList", "TLI_GetDeviceListSize", "TLI_GetDeviceList",
      "TLI_GetDeviceListByType", "TLI_GetDeviceListByTypes", "TLI_GetDeviceListExt",
      "TLI_GetDeviceListByTypeExt", "TLI_GetDeviceListByTypesExt",
      "SC_Open", "SC_Close", "SC_CheckConnection",
      "SC_GetCycleParams", "SC_SetCycleParams",
      "SC_GetMMIParamsBlock", "SC_SetMMIParamsBlock",
      "SC_GetTriggerConfigParams", "SC_SetTriggerConfigParams",
      "SC_StartPolling", "SC_StopPolling", "SC_PollingDuration",
      "SC_ClearMessageQueue", "SC_RegisterMessageCallback", "SC_MessageQueueSize",
      "SC_GetNextMessage", "SC_WaitForMessage"].all
        (fun n => (declNames KSC.decls).contains n)) = true := by
  decide

/-- C7: In each header the declared functions whose names mention the
message queue are exactly the callback-registration entry point plus the
four queue accessors, and those whose names mention the polling loop are
exactly the start/stop/interval calls; no other declared function touches
either. -/
theorem queue_and_polling_surface_exact_C7 :
    (KLS.decls.filter (fun d => strHasSub d.name "Message")).map (fun d => d.name) =
      ["LS_ClearMessageQueue", "LS_RegisterMessageCallback", "LS_MessageQueueSize",
       "LS_GetNextMessage", "LS_WaitForMessage"] ∧
    (KLS.decls.filter (fun d => strHasSub d.name "Polling")).map (fun d => d.name) =
      ["LS_StartPolling", "LS_PollingDuration", "LS_StopPolling"] ∧
    (KSC.decls.filter (fun d => strHasSub d.name "Message")).map (fun d => d.name) =
      ["SC_ClearMessageQueue", "SC_RegisterMessageCallback", "SC_MessageQueueSize",
       "SC_GetNextMessage", "SC_WaitForMessage"] ∧
    (KSC.decls.filter (fun d => strHasSub d.name "Polling")).map (fun d => d.name) =
      ["SC_StartPolling", "SC_PollingDuration", "SC_StopPolling"] := by
  decide

/-- C8: In both headers TLI_GetDeviceInfo is the unique short-returning
prototype whose documented contract is `1 if successful, 0 if not`; every
other short-returning prototype documents either the error-code convention
(0 = success, nonzero = error code) or a plain returned value, so
TLI_GetDeviceInfo inverts the convention of the other short-returning
calls. -/
theorem tli_getdeviceinfo_inverted_convention_C8 :
    retDocOf KLS.decls "TLI_GetDeviceInfo" = some .oneIfSuccessful ∧
    retDocOf KSC.decls "TLI_GetDeviceInfo" = some .oneIfSuccessful ∧
    (KLS.decls.filter (fun d => d.ret == "short" && d.retDoc == .oneIfSuccessful)).map
      (fun d => d.name) = ["TLI_GetDeviceInfo"] ∧
    (KSC.decls.filter (fun d => d.ret == "short" && d.retDoc == .oneIfSuccessful)).map
      (fun d => d.name) = ["TLI_GetDeviceInfo"] ∧
    KLS.decls.all (fun d =>
      !(d.ret == "short") || d.name == "TLI_GetDeviceInfo" ||
      d.retDoc == .errorCodeZeroSuccess || d.retDoc == .valueDoc) = true ∧
    KSC.decls.all (fun d =>
      !(d.ret == "short") || d.name == "TLI_GetDeviceInfo" ||
      d.retDoc == .errorCodeZeroSuccess || d.retDoc == .valueDoc) = true := by
  decide

/-- C9: Under the declared pack(1) layout in both headers,
sizeof(TLI_DeviceInfo) is 93 with field offsets 0 (typeID), 4
(description), 69 (serialNo), 78 (PID), 82 (isKnownType), 83 (motorType,
occupying 4 bytes), 87-90 (the four flag bytes) and 91 (maxChannels), and
sizeof(TLI_HardwareInformation) is 84 with field offsets 0, 4, 12, 14, 18,
66, 78, 80, 82. -/
theorem tli_struct_layout_bytes_C9 :
    declaredOffsets KLS.TLI_DeviceInfo = [0, 4, 69, 78, 82, 83, 87, 88, 89, 90, 91] ∧
    declaredSize KLS.TLI_DeviceInfo = 93 ∧
    declaredOffsets KLS.TLI_HardwareInformation = [0, 4, 12, 14, 18, 66, 78, 80, 82] ∧
    declaredSize KLS.TLI_HardwareInformation = 84 ∧
    declaredOffsets KSC.TLI_DeviceInfo = [0, 4, 69, 78, 82, 83, 87, 88, 89, 90, 91] ∧
    declaredSize KSC.TLI_DeviceInfo = 93 ∧
    declaredOffsets KSC.TLI_HardwareInformation = [0, 4, 12, 14, 18, 66, 78, 80, 82] ∧
    declaredSize KSC.TLI_HardwareInformation = 84 ∧
    ctSize (.enumNamed "MOT_MotorTypes" "") = 4 := by
  decide

/-- C10: In each header the declared functions returning void are exactly
Close, Identify, ClearMessageQueue, RegisterMessageCallback, StopPolling
and EnableLastMsgTimer (with the header's device prefix); every other
exported operation returns a value. -/
theorem void_returning_operations_C10 :
    (KLS.decls.filter (fun d => d.ret == "void")).map (fun d => d.name) =
      ["LS_Close", "LS_Identify", "LS_ClearMessageQueue", "LS_RegisterMessageCallback",
       "LS_StopPolling", "LS_EnableLastMsgTimer"] ∧
    (KSC.decls.filter (fun d => d.ret == "void")).map (fun d => d.name) =
      ["SC_Close", "SC_Identify", "SC_ClearMessageQueue", "SC_RegisterMessageCallback",
       "SC_StopPolling", "SC_EnableLastMsgTimer"] := by
  decide

end ThorlabsHeaders
